import Mathlib

/-!
Verification of the groq-api-rs completion client
(`src/completion/client.rs`, `src/completion/request/mod.rs`).

The client state, the message-buffer operations, the request assembler and
the two completion paths (non-streaming and streaming) are embedded as pure
Lean functions.  Network effects are represented by an explicit `Transport`
value describing what the remote side does on this one call; resource
effects of the streaming path (whether `stream.close()` was invoked, how
many events were consumed) are tracked as explicit fields of the result.
-/

namespace GroqApi

/-- Modelled from the spec: `message.rs` is not in `src/`.  A tool
invocation requested by an assistant message; its internal shape is opaque
to every claim, so it is carried as raw data. -/
structure ToolCall where
  raw : String
deriving DecidableEq, Repr

/-- Modelled from the spec: `message.rs` is not in `src/`.  Tagged variant
over system / user / assistant / tool roles, each carrying optional
content, optional name, optional role string and optional tool-call
identifier; the assistant variant additionally carries an optional list of
tool invocations (spec section 3, and the variants used by the tests in
`request/mod.rs`). -/
inductive Message where
  | SystemMessage (content name role tool_call_id : Option String)
  | UserMessage (content name role tool_call_id : Option String)
  | AssistantMessage (content name role tool_call_id : Option String)
      (tool_calls : Option (List ToolCall))
  | ToolMessage (content name role tool_call_id : Option String)
deriving DecidableEq, Repr

/-- Modelled from the spec: `response.rs` is not in `src/`.  The full
non-streaming completion response; its internal shape is opaque to every
claim, so it is carried as raw data. -/
structure Response where
  raw : String
deriving DecidableEq, Repr

/-- Modelled from the spec: `response.rs` is not in `src/`.  One decoded
chunk of a streamed completion response; its internal shape is opaque to
every claim, so it is carried as raw data. -/
structure StreamResponse where
  raw : String
deriving DecidableEq, Repr

/-- Modelled from the spec: `response.rs` is not in `src/`.  A structured
error carrying a remote-assigned status code plus a remote-defined
message/kind payload (spec section 3).  `client.rs` overwrites the `code`
field with the transport-observed status before failing. -/
structure ErrorResponse where
  code : Nat
  message : String
  kind : String
deriving DecidableEq, Repr

/-- `ResponseFormat` from `request/mod.rs`. -/
structure ResponseFormat where
  response_type : String
deriving DecidableEq, Repr

/-- `StopEnum` from `request/mod.rs`. -/
inductive StopEnum where
  | Token (t : String)
  | Tokens (ts : List String)
deriving DecidableEq, Repr

/-- `Function` from `request/mod.rs` (its `parameters: Option<serde_json::Value>`
is carried as raw data). -/
structure Function where
  description : Option String
  name : Option String
  parameters : Option String
deriving DecidableEq, Repr

/-- `Tool` from `request/mod.rs`. -/
structure Tool where
  tool_type : String
  function : Function
deriving DecidableEq, Repr

/-- `ToolChoiceEnum` from `request/mod.rs`. -/
inductive ToolChoiceEnum where
  | Str (s : String)
  | Tool (t : Tool)
deriving DecidableEq, Repr

/-- `Request` from `request/mod.rs`: the request value object.  The
floating-point sampling parameters (`frequency_penalty`, `presence_penalty`,
`temperature`, `top_p`) and `logit_bias` are carried opaquely (as rationals
resp. raw data); no code path under verification reads them. -/
structure Request where
  logit_bias : Option String
  logprobs : Bool
  frequency_penalty : Rat
  max_tokens : Option Nat
  messages : List Message
  model : String
  n : Nat
  presence_penalty : Rat
  response_format : ResponseFormat
  seed : Option Int
  stop : Option StopEnum
  stream : Bool
  temperature : Rat
  tool_choice : Option ToolChoiceEnum
  tools : Option (List Tool)
  top_logprobs : Option Nat
  top_p : Rat
  user : Option String
deriving DecidableEq, Repr

/-- `Request::is_stream` from `request/mod.rs`. -/
def Request.is_stream (r : Request) : Bool :=
  r.stream

/-- Modelled from the spec: `request/builder.rs` is not in `src/`.  The
request template: a model identifier, the streaming flag, and the message
list injected by `with_messages`. -/
structure RequestBuilder where
  model : String
  stream : Bool
  messages : List Message
deriving DecidableEq, Repr

/-- Modelled from the spec: `request/builder.rs` is not in `src/`.  A fresh
template for a model, with the streaming flag defaulting to false and no
messages (matching the defaults asserted by the tests in `request/mod.rs`). -/
def RequestBuilder.new (model : String) : RequestBuilder :=
  { model := model, stream := false, messages := [] }

/-- Modelled from the spec: `request/builder.rs` is not in `src/`.  Sets
the streaming flag. -/
def RequestBuilder.with_stream (rb : RequestBuilder) (b : Bool) : RequestBuilder :=
  { rb with stream := b }

/-- Modelled from the spec: `request/builder.rs` is not in `src/`.  Injects
the assembled message list into the template; fails when the list is empty
(the builder tests in `request/mod.rs` require "the message vec should
contain at least 1 Message"). -/
def RequestBuilder.with_messages (rb : RequestBuilder) (msgs : List Message) :
    Except String RequestBuilder :=
  if msgs.isEmpty then
    Except.error "the message vec should contain at least 1 Message"
  else
    Except.ok { rb with messages := msgs }

/-- Modelled from the spec: `request/builder.rs` is not in `src/`.  Builds
the request value with the defaults asserted by the tests in
`request/mod.rs` (logprobs false, penalties 0, n 1, response format text,
temperature 1, top_p 1). -/
def RequestBuilder.build (rb : RequestBuilder) : Request :=
  { logit_bias := none
    logprobs := false
    frequency_penalty := 0
    max_tokens := none
    messages := rb.messages
    model := rb.model
    n := 1
    presence_penalty := 0
    response_format := { response_type := "text" }
    seed := none
    stop := none
    stream := rb.stream
    temperature := 1
    tool_choice := none
    tools := none
    top_logprobs := none
    top_p := 1
    user := none }

/-- Modelled from the spec: `request/builder.rs` is not in `src/`.  Reads
the streaming flag of the template (`create` dispatches on it before
building). -/
def RequestBuilder.is_stream (rb : RequestBuilder) : Bool :=
  rb.stream

/-- `CompletionOption` from `client.rs`: either a full response or the
ordered chunk sequence of a streamed response. -/
inductive CompletionOption where
  | NonStream (r : Response)
  | Stream (chunks : List StreamResponse)
deriving DecidableEq, Repr

/-- `Groq` from `client.rs`: the client state.  The `reqwest::Client`
transport handle carries no message/credential data; it is represented by
an opaque resource identifier. -/
structure Groq where
  api_key : String
  messages : List Message
  tmp_messages : List Message
  client : Nat
deriving DecidableEq, Repr

namespace Groq

/-- `Groq::new` from `client.rs`: fresh state with empty buffers; `res` is
the identifier of the freshly created transport resource
(`reqwest::Client::new()`). -/
def new (api_key : String) (res : Nat) : Groq :=
  { api_key := api_key, messages := [], tmp_messages := [], client := res }

/-- `Groq::add_message` from `client.rs`: appends to the persistent
history. -/
def add_message (g : Groq) (msg : Message) : Groq :=
  { g with messages := g.messages ++ [msg] }

/-- `Groq::add_messages` from `client.rs`: appends a batch to the
persistent history. -/
def add_messages (g : Groq) (msgs : List Message) : Groq :=
  { g with messages := g.messages ++ msgs }

/-- `Groq::clear_messages` from `client.rs`: empties the persistent
history (the capacity shrink to 3 is a memory effect with no observable
value-level content). -/
def clear_messages (g : Groq) : Groq :=
  { g with messages := [] }

/-- `Groq::clear_tmp_messages_override` from `client.rs`: empties the
transient buffer. -/
def clear_tmp_messages_override (g : Groq) : Groq :=
  { g with tmp_messages := [] }

/-- `Groq::add_tmp_messages` from `client.rs`. -/
def add_tmp_messages (g : Groq) (msgs : List Message) : Groq :=
  { g with tmp_messages := g.tmp_messages ++ msgs }

/-- `Groq::add_tmp_message` from `client.rs`. -/
def add_tmp_message (g : Groq) (msg : Message) : Groq :=
  { g with tmp_messages := g.tmp_messages ++ [msg] }

/-- `Groq::get_tmp_request_messages` from `client.rs`. -/
def get_tmp_request_messages (g : Groq) : Option (List Message) :=
  if g.tmp_messages.isEmpty then none else some g.tmp_messages

/-- `Groq::get_all_request_messages` from `client.rs`: the request
assembler's merge.  Empty transient buffer: a clone of the history;
otherwise the concatenation `tmp_messages ++ messages`. -/
def get_all_request_messages (g : Groq) : List Message :=
  if g.tmp_messages.isEmpty then
    g.messages
  else
    List.flatten [g.tmp_messages, g.messages]

/-- `Groq::get_request_messages_with_tmp_clear` from `client.rs`: reads the
assembled list, then clears the transient buffer; returns the list and the
mutated state. -/
def get_request_messages_with_tmp_clear (g : Groq) : List Message × Groq :=
  (g.get_all_request_messages, g.clear_tmp_messages_override)

end Groq

/-- One event yielded by the SSE stream (`reqwest_eventsource::Event` plus
the stream's error channel, as matched by the loop in
`create_stream_completion`): the connection-open notification, a message
event carrying a data string, or a transport-level error. -/
inductive SSEvent where
  | openEv
  | message (data : String)
  | err (e : String)
deriving DecidableEq, Repr

/-- The unified failure channel of `create` (`anyhow::Error` in the
source); the constructors keep the four spec error kinds distinguishable,
as anyhow downcasting does. -/
inductive CreateError where
  | buildError (msg : String)
  | precondition (msg : String)
  | transport (msg : String)
  | decodeError (payload : String)
  | application (e : ErrorResponse)
deriving DecidableEq, Repr

/-- The HTTP reply observed by the non-streaming path: the
transport-observed status code and the body text. -/
structure HttpResponse where
  status : Nat
  body : String
deriving DecidableEq, Repr

/-- What the remote side and the serde decoders do on this one call.
`send` is the non-streaming exchange (`none` models a transport failure
before any body is received); `decodeResponse` / `decodeError` model
`serde_json` decoding of the respective body shapes; `es_ok` is whether
`EventSource::new` succeeds; `events` is the streamed event sequence in
arrival order; `decodeChunk` models `serde_json::from_str::<StreamResponse>`. -/
structure Transport where
  send : Option HttpResponse
  decodeResponse : String → Option Response
  decodeError : String → Option ErrorResponse
  es_ok : Bool
  events : List SSEvent
  decodeChunk : String → Option StreamResponse

/-- The observable outcome of one completion call: the client state after
the call, the unified result, whether an event-stream connection was
opened, whether `stream.close()` was invoked on it before returning, and
how many events were consumed from the stream. -/
structure CallResult where
  g : Groq
  result : Except CreateError CompletionOption
  opened : Bool
  closed : Bool
  eventsRead : Nat

/-- The `while let Some(event) = stream.next().await` loop of
`create_stream_completion` in `client.rs`.  Given the chunk decoder, the
remaining events and the accumulated chunks `bufs`, it returns the result,
whether `stream.close()` was invoked before returning, and the number of
events consumed.  Branches, in source order: stream end exits the loop and
reaches `stream.close()` (line 153); `Ok(Event::Open)` only prints;
`Ok(Event::Message)` first compares the data against the `"[DONE]"`
sentinel (break, reaching line 153) and otherwise decodes it, where a
decode failure propagates via `?` WITHOUT reaching any `stream.close()`;
`Err` closes the stream and bails. -/
def runStreamLoop (decode : String → Option StreamResponse) :
    List SSEvent → List StreamResponse →
    Except CreateError (List StreamResponse) × Bool × Nat
  | [], bufs => (Except.ok bufs, true, 0)
  | SSEvent.openEv :: rest, bufs =>
    let p := runStreamLoop decode rest bufs
    (p.1, p.2.1, p.2.2 + 1)
  | SSEvent.message d :: rest, bufs =>
    if d = "[DONE]" then
      (Except.ok bufs, true, 1)
    else
      match decode d with
      | some chunk =>
        let p := runStreamLoop decode rest (bufs ++ [chunk])
        (p.1, p.2.1, p.2.2 + 1)
      | none => (Except.error (CreateError.decodeError d), false, 1)
  | SSEvent.err e :: _, _ => (Except.error (CreateError.transport e), true, 1)

/-- `Groq::create_stream_completion` from `client.rs`.  In source order:
drain the buffers into the request (`get_request_messages_with_tmp_clear`
is evaluated before `with_messages` can fail), build, check the streaming
flag precondition (`anyhow::ensure!`), create the `EventSource` (a failure
there propagates with no stream to close), then run the event loop. -/
def Groq.create_stream_completion (g : Groq) (rb : RequestBuilder) (t : Transport) :
    CallResult :=
  let drained := g.get_request_messages_with_tmp_clear
  let all := drained.1
  let g' := drained.2
  match rb.with_messages all with
  | Except.error e =>
    { g := g', result := Except.error (CreateError.buildError e),
      opened := false, closed := false, eventsRead := 0 }
  | Except.ok rb' =>
    let req := rb'.build
    if ¬req.is_stream then
      { g := g',
        result := Except.error (CreateError.precondition
          "'create_stream_completion' func must have the stream flag turned on in request body"),
        opened := false, closed := false, eventsRead := 0 }
    else if ¬t.es_ok then
      { g := g', result := Except.error (CreateError.transport "EventSource::new failed"),
        opened := false, closed := false, eventsRead := 0 }
    else
      let p := runStreamLoop t.decodeChunk t.events []
      { g := g', result := p.1.map CompletionOption.Stream,
        opened := true, closed := p.2.1, eventsRead := p.2.2 }

/-- `Groq::create_non_stream_completion` from `client.rs`.  In source
order: drain the buffers into the request, build, send; on status exactly
`reqwest::StatusCode::OK` (200) decode the body as a `Response`; on any
other status decode the body as an `ErrorResponse`, overwrite its `code`
field with the transport-observed status, and bail with it. -/
def Groq.create_non_stream_completion (g : Groq) (rb : RequestBuilder) (t : Transport) :
    CallResult :=
  let drained := g.get_request_messages_with_tmp_clear
  let all := drained.1
  let g' := drained.2
  match rb.with_messages all with
  | Except.error e =>
    { g := g', result := Except.error (CreateError.buildError e),
      opened := false, closed := false, eventsRead := 0 }
  | Except.ok rb' =>
    let _req := rb'.build
    match t.send with
    | none =>
      { g := g', result := Except.error (CreateError.transport "send failed"),
        opened := false, closed := false, eventsRead := 0 }
    | some resp =>
      if resp.status = 200 then
        match t.decodeResponse resp.body with
        | some r =>
          { g := g', result := Except.ok (CompletionOption.NonStream r),
            opened := false, closed := false, eventsRead := 0 }
        | none =>
          { g := g', result := Except.error (CreateError.decodeError resp.body),
            opened := false, closed := false, eventsRead := 0 }
      else
        match t.decodeError resp.body with
        | some e0 =>
          { g := g',
            result := Except.error (CreateError.application { e0 with code := resp.status }),
            opened := false, closed := false, eventsRead := 0 }
        | none =>
          { g := g', result := Except.error (CreateError.decodeError resp.body),
            opened := false, closed := false, eventsRead := 0 }

/-- `Groq::create` from `client.rs`: the single completion entry point,
dispatching on the template's streaming flag. -/
def Groq.create (g : Groq) (rb : RequestBuilder) (t : Transport) : CallResult :=
  if ¬rb.is_stream then
    g.create_non_stream_completion rb t
  else
    g.create_stream_completion rb t

/-- The chunks obtained by decoding the message events of an event-sequence
segment, in arrival order (open notifications carry no data). -/
def decodedChunks (decode : String → Option StreamResponse) (evs : List SSEvent) :
    List StreamResponse :=
  evs.filterMap fun e =>
    match e with
    | SSEvent.message d => decode d
    | _ => none

/-- An event the stream loop passes through while staying open and
accumulating: a connection-open notification, or a message that is not the
sentinel and decodes successfully. -/
def GoodEvent (decode : String → Option StreamResponse) (e : SSEvent) : Prop :=
  e = SSEvent.openEv ∨
    ∃ d c, e = SSEvent.message d ∧ d ≠ "[DONE]" ∧ decode d = some c

/-- The data `impl Hash for Groq` in `client.rs` feeds to the hasher, in
order: `self.messages`, then `self.api_key`.  Any deterministic hasher's
output is a function of this pair, so equal pairs give equal structural
hashes. -/
def Groq.hashInput (g : Groq) : List Message × String :=
  (g.messages, g.api_key)

/-- One explicit history mutation: `add_message` or `add_messages`. -/
inductive HistOp where
  | add (m : Message)
  | addMany (ms : List Message)

/-- Applies a sequence of explicit history mutations to a client state. -/
def applyHistOps (g : Groq) : List HistOp → Groq
  | [] => g
  | HistOp.add m :: ops => applyHistOps (g.add_message m) ops
  | HistOp.addMany ms :: ops => applyHistOps (g.add_messages ms) ops

/-- The flat message sequence added by a sequence of history mutations. -/
def histOf : List HistOp → List Message
  | [] => []
  | HistOp.add m :: ops => m :: histOf ops
  | HistOp.addMany ms :: ops => ms ++ histOf ops

theorem applyHistOps_eq (ops : List HistOp) : ∀ g : Groq,
    applyHistOps g ops = { g with messages := g.messages ++ histOf ops } := by
  induction ops with
  | nil => intro g; simp [applyHistOps, histOf]
  | cons op ops ih =>
    intro g
    cases op with
    | add m => simp [applyHistOps, histOf, ih, Groq.add_message]
    | addMany ms => simp [applyHistOps, histOf, ih, Groq.add_messages]

theorem create_non_stream_g_eq (g : Groq) (rb : RequestBuilder) (t : Transport) :
    (g.create_non_stream_completion rb t).g = g.clear_tmp_messages_override := by
  unfold Groq.create_non_stream_completion
  cases hw : rb.with_messages g.get_request_messages_with_tmp_clear.1 with
  | error e => simp only [hw]; rfl
  | ok rb' =>
    simp only [hw]
    cases hs : t.send with
    | none => simp only [hs]; rfl
    | some resp =>
      simp only [hs]
      by_cases h200 : resp.status = 200
      · simp only [if_pos h200]
        cases t.decodeResponse resp.body <;> rfl
      · simp only [if_neg h200]
        cases t.decodeError resp.body <;> rfl

theorem create_stream_g_eq (g : Groq) (rb : RequestBuilder) (t : Transport) :
    (g.create_stream_completion rb t).g = g.clear_tmp_messages_override := by
  unfold Groq.create_stream_completion
  cases hw : rb.with_messages g.get_request_messages_with_tmp_clear.1 with
  | error e => simp only [hw]; rfl
  | ok rb' =>
    simp only [hw]
    by_cases hstream : rb'.build.is_stream
    · simp only [hstream]
      by_cases hes : t.es_ok <;> simp only [hes] <;> rfl
    · simp only [hstream]
      rfl

theorem create_g_eq (g : Groq) (rb : RequestBuilder) (t : Transport) :
    (g.create rb t).g = g.clear_tmp_messages_override := by
  unfold Groq.create
  by_cases h : rb.is_stream
  · simp only [h, not_true, if_neg, ite_false]
    exact create_stream_g_eq g rb t
  · simp only [h, not_false_iff, ite_true]
    exact create_non_stream_g_eq g rb t

theorem runStreamLoop_append_good (decode : String → Option StreamResponse)
    (pre : List SSEvent) (hpre : ∀ e ∈ pre, GoodEvent decode e)
    (rest : List SSEvent) (bufs : List StreamResponse) :
    runStreamLoop decode (pre ++ rest) bufs =
      ((runStreamLoop decode rest (bufs ++ decodedChunks decode pre)).1,
       (runStreamLoop decode rest (bufs ++ decodedChunks decode pre)).2.1,
       (runStreamLoop decode rest (bufs ++ decodedChunks decode pre)).2.2 + pre.length) := by
  induction pre generalizing bufs with
  | nil => simp [decodedChunks]
  | cons e pre ih =>
    have he : GoodEvent decode e := hpre e (List.mem_cons_self e pre)
    have hpre' : ∀ x ∈ pre, GoodEvent decode x := fun x hx => hpre x (List.mem_cons_of_mem e hx)
    rcases he with h | ⟨d, c, hd, hne, hdec⟩
    · subst h
      simp only [List.cons_append, runStreamLoop, List.append_eq]
      rw [ih hpre']
      simp only [decodedChunks, List.filterMap_cons, List.length_cons, Prod.mk.injEq]
      exact ⟨trivial, trivial, by omega⟩
    · subst hd
      simp only [List.cons_append, runStreamLoop, if_neg hne, hdec, List.append_eq]
      rw [ih hpre']
      simp only [decodedChunks, List.filterMap_cons, hdec, List.length_cons, Prod.mk.injEq,
        List.append_assoc, List.singleton_append]
      exact ⟨trivial, trivial, by omega⟩

theorem isEmpty_false_of_ne_nil {α : Type} {l : List α} (h : l ≠ []) : l.isEmpty = false := by
  cases l with
  | nil => exact absurd rfl h
  | cons a as => rfl

theorem create_stream_loop_eq (g : Groq) (rb : RequestBuilder) (t : Transport)
    (hmsgs : g.get_all_request_messages ≠ [])
    (hstream : rb.stream = true) (hes : t.es_ok = true) :
    g.create_stream_completion rb t =
      { g := g.clear_tmp_messages_override,
        result := (runStreamLoop t.decodeChunk t.events []).1.map CompletionOption.Stream,
        opened := true,
        closed := (runStreamLoop t.decodeChunk t.events []).2.1,
        eventsRead := (runStreamLoop t.decodeChunk t.events []).2.2 } := by
  unfold Groq.create_stream_completion
  have hne : (g.get_request_messages_with_tmp_clear.1).isEmpty = false :=
    isEmpty_false_of_ne_nil hmsgs
  simp [RequestBuilder.with_messages, hne, RequestBuilder.build, Request.is_stream, hstream, hes]
  rfl

theorem create_non_stream_eq (g : Groq) (rb : RequestBuilder) (t : Transport)
    (resp : HttpResponse)
    (hmsgs : g.get_all_request_messages ≠ [])
    (hsend : t.send = some resp) :
    g.create_non_stream_completion rb t =
      { g := g.clear_tmp_messages_override,
        result :=
          if resp.status = 200 then
            match t.decodeResponse resp.body with
            | some r => Except.ok (CompletionOption.NonStream r)
            | none => Except.error (CreateError.decodeError resp.body)
          else
            match t.decodeError resp.body with
            | some e0 =>
              Except.error (CreateError.application { e0 with code := resp.status })
            | none => Except.error (CreateError.decodeError resp.body),
        opened := false, closed := false, eventsRead := 0 } := by
  unfold Groq.create_non_stream_completion
  have hne : (g.get_request_messages_with_tmp_clear.1).isEmpty = false :=
    isEmpty_false_of_ne_nil hmsgs
  simp only [RequestBuilder.with_messages, hne, Bool.false_eq_true, if_false, hsend]
  by_cases h200 : resp.status = 200
  · simp only [if_pos h200]
    cases t.decodeResponse resp.body <;> rfl
  · simp only [if_neg h200]
    cases t.decodeError resp.body <;> rfl

/-- A concrete user message, used by the closed witness statements. -/
def msgU : Message :=
  Message.UserMessage (some "Explain the importance of fast language models") none
    (some "user") none

/-- A concrete system message, used by the closed witness statements. -/
def msgS : Message :=
  Message.SystemMessage (some "I am a system message") none (some "system") none

/-- **C1.** For every client state, the assembled request message list
(`get_all_request_messages`) equals the pending buffer (`tmp_messages`)
concatenated before the persistent history (`messages`) when the pending
buffer is non-empty, and equals the history exactly when the pending
buffer is empty. -/
theorem get_all_request_messages_merge_order (g : Groq) :
    (g.tmp_messages ≠ [] → g.get_all_request_messages = g.tmp_messages ++ g.messages) ∧
    (g.tmp_messages = [] → g.get_all_request_messages = g.messages) := by
  constructor
  · intro h
    simp [Groq.get_all_request_messages, isEmpty_false_of_ne_nil h]
  · intro h
    simp [Groq.get_all_request_messages, h]

/-- Client with a non-empty pending buffer, for the C1 witness. -/
def gC1a : Groq := ((Groq.new "k" 0).add_message msgU).add_tmp_message msgS

/-- Client with an empty pending buffer, for the C1 witness. -/
def gC1b : Groq := (Groq.new "k" 0).add_message msgU

/-- Witness for C1 at concrete inputs: one client with pending non-empty,
one with pending empty. -/
theorem get_all_request_messages_merge_order_witness :
    gC1a.get_all_request_messages = gC1a.tmp_messages ++ gC1a.messages ∧
    gC1b.get_all_request_messages = gC1b.messages :=
  ⟨(get_all_request_messages_merge_order gC1a).1 (by decide),
   (get_all_request_messages_merge_order gC1b).2 (by decide)⟩

/-- **C2.** For every client state, request template and transport
behaviour, after the completion entry point `create` returns — whatever the
outcome (request-building failure, precondition failure, transport error,
decode error, remote error, or success) — the pending `tmp_messages` buffer
of the resulting state is empty: it is drained when the assembler reads it,
before the remote call. -/
theorem create_drains_tmp_messages (g : Groq) (rb : RequestBuilder) (t : Transport) :
    ((g.create rb t).g).tmp_messages = [] := by
  rw [create_g_eq]
  rfl

/-- **C3.** An event whose data is exactly `"[DONE]"` terminates the stream
accumulation: for any prefix `pre` of events the loop passes through (open
notifications and decodable non-sentinel messages), the loop returns
exactly the chunks decoded from `pre` in arrival order, the stream is
closed, and exactly `pre.length + 1` events are consumed — the events after
the sentinel are never read or decoded, and the conclusion holds for every
decoder, in particular one that would fail on the literal `"[DONE]"`
(the sentinel is compared before any decode attempt). -/
theorem stream_sentinel_termination (decode : String → Option StreamResponse)
    (pre post : List SSEvent) (hpre : ∀ e ∈ pre, GoodEvent decode e) :
    runStreamLoop decode (pre ++ SSEvent.message "[DONE]" :: post) [] =
      (Except.ok (decodedChunks decode pre), true, pre.length + 1) := by
  rw [runStreamLoop_append_good decode pre hpre]
  simp [runStreamLoop, Nat.add_comm]

/-- Decoder for the witnesses: fails on the sentinel literal and on
`"bad"`, decodes anything else into a chunk carrying the raw payload. -/
def decodeW : String → Option StreamResponse := fun s =>
  if s = "[DONE]" ∨ s = "bad" then none else some ⟨s⟩

/-- Events before the sentinel, for the C3 witness. -/
def preW : List SSEvent := [SSEvent.openEv, SSEvent.message "c1", SSEvent.message "c2"]

/-- Events after the sentinel, for the C3 witness. -/
def postW : List SSEvent := [SSEvent.message "c3"]

/-- Witness for C3 at concrete inputs: events
`open, c1, c2, "[DONE]", c3` yield exactly `[c1, c2]`, with the
post-sentinel event unread, under a decoder that would fail on `"[DONE]"`. -/
theorem stream_sentinel_termination_witness :
    runStreamLoop decodeW (preW ++ SSEvent.message "[DONE]" :: postW) [] =
      (Except.ok (decodedChunks decodeW preW), true, preW.length + 1) ∧
    decodedChunks decodeW preW = [⟨"c1"⟩, ⟨"c2"⟩] ∧
    decodeW "[DONE]" = none :=
  ⟨stream_sentinel_termination decodeW preW postW (by
      intro e he
      simp only [preW, List.mem_cons, List.not_mem_nil, or_false] at he
      rcases he with h | h | h
      · exact Or.inl h
      · exact Or.inr ⟨"c1", ⟨"c1"⟩, h, by decide, by decide⟩
      · exact Or.inr ⟨"c2", ⟨"c2"⟩, h, by decide, by decide⟩),
   by decide, by decide⟩

/-- **C4.** If a transport-level error arrives before the sentinel, the
whole streaming completion fails: the result of `create_stream_completion`
is the transport error, and none of the chunks accumulated from the good
events before it are returned as success (all-or-nothing). -/
theorem stream_transport_error_all_or_nothing (g : Groq) (rb : RequestBuilder)
    (t : Transport) (pre post : List SSEvent) (emsg : String)
    (hmsgs : g.get_all_request_messages ≠ [])
    (hstream : rb.stream = true)
    (hes : t.es_ok = true)
    (hevents : t.events = pre ++ SSEvent.err emsg :: post)
    (hpre : ∀ e ∈ pre, GoodEvent t.decodeChunk e) :
    (g.create_stream_completion rb t).result =
      Except.error (CreateError.transport emsg) := by
  rw [create_stream_loop_eq g rb t hmsgs hstream hes]
  simp only [hevents]
  rw [runStreamLoop_append_good t.decodeChunk pre hpre]
  simp [runStreamLoop, Except.map]

/-- Client for the C4 witness (spec scenario: empty credential, one pending
user message, streaming on). -/
def gC4 : Groq := (Groq.new "" 0).add_tmp_message msgU

/-- Streaming request template for the C4 and C7 witnesses. -/
def rbStream : RequestBuilder := (RequestBuilder.new "mixtral-8x7b-32768").with_stream true

/-- Transport for the C4 witness: two decodable chunks, then a mid-stream
transport error. -/
def tC4 : Transport :=
  { send := none, decodeResponse := fun _ => none, decodeError := fun _ => none,
    es_ok := true,
    events := [SSEvent.message "c1", SSEvent.message "c2", SSEvent.err "connection reset"],
    decodeChunk := decodeW }

/-- Witness for C4 at concrete inputs: events `c1, c2, <transport error>`
yield a failure, not a partial `[c1, c2]`. -/
theorem stream_transport_error_all_or_nothing_witness :
    (gC4.create_stream_completion rbStream tC4).result =
      Except.error (CreateError.transport "connection reset") :=
  stream_transport_error_all_or_nothing gC4 rbStream tC4
    [SSEvent.message "c1", SSEvent.message "c2"] [] "connection reset"
    (by decide) rfl rfl rfl
    (by
      intro e he
      simp only [List.mem_cons, List.not_mem_nil, or_false] at he
      rcases he with h | h
      · exact Or.inr ⟨"c1", ⟨"c1"⟩, h, by decide, by decide⟩
      · exact Or.inr ⟨"c2", ⟨"c2"⟩, h, by decide, by decide⟩)

/-- **C5.** For every non-streaming exchange whose HTTP status is outside
the 2xx success range and whose body decodes into an `ErrorResponse`, the
resulting application error carries the transport-observed status code,
overwriting whatever status the decoded body itself carried. -/
theorem non_stream_error_status_override (g : Groq) (rb : RequestBuilder) (t : Transport)
    (resp : HttpResponse) (e0 : ErrorResponse)
    (hmsgs : g.get_all_request_messages ≠ [])
    (hsend : t.send = some resp)
    (hnon2xx : ¬(200 ≤ resp.status ∧ resp.status < 300))
    (hdec : t.decodeError resp.body = some e0) :
    (g.create_non_stream_completion rb t).result =
      Except.error (CreateError.application
        { code := resp.status, message := e0.message, kind := e0.kind }) := by
  have h200 : resp.status ≠ 200 := fun h => hnon2xx (by omega)
  rw [create_non_stream_eq g rb t resp hmsgs hsend]
  simp [if_neg h200, hdec]

/-- Client for the non-streaming witnesses and counterexample. -/
def gNS : Groq := (Groq.new "k" 0).add_message msgU

/-- Non-streaming request template for the witnesses and counterexample. -/
def rbNS : RequestBuilder := RequestBuilder.new "mixtral-8x7b-32768"

/-- Transport for the C5 witness: HTTP 429 with an error body whose own
embedded status is 500. -/
def tC5 : Transport :=
  { send := some { status := 429, body := "errbody" },
    decodeResponse := fun _ => none,
    decodeError := fun s =>
      if s = "errbody" then
        some { code := 500, message := "rate limited", kind := "too_many_requests" }
      else none,
    es_ok := false, events := [], decodeChunk := fun _ => none }

/-- Witness for C5 at concrete inputs: status 429 with a body embedding
status 500 yields an application error carrying 429. -/
theorem non_stream_error_status_override_witness :
    (gNS.create_non_stream_completion rbNS tC5).result =
      Except.error (CreateError.application
        { code := 429, message := "rate limited", kind := "too_many_requests" }) :=
  non_stream_error_status_override gNS rbNS tC5 { status := 429, body := "errbody" }
    { code := 500, message := "rate limited", kind := "too_many_requests" }
    (by decide) rfl (by decide) (by decide)

/-- Transport for the C6 counterexample: HTTP 201 — a 2xx success status
that is not 200 — with a decodable error body. -/
def tC6 : Transport :=
  { send := some { status := 201, body := "errbody" },
    decodeResponse := fun _ => none,
    decodeError := fun s =>
      if s = "errbody" then
        some { code := 0, message := "oops", kind := "invalid_request" }
      else none,
    es_ok := false, events := [], decodeChunk := fun _ => none }

/-- Counterexample to C6 as stated: HTTP status 201 lies in the 2xx success
range, yet the non-streaming path fails with a structured Error Response,
because the source compares the status against exactly 200
(`reqwest::StatusCode::OK`), not against the 2xx range. -/
theorem non_stream_2xx_error_response_counterexample :
    (200 ≤ 201 ∧ 201 < 300) ∧
    (gNS.create_non_stream_completion rbNS tC6).result =
      Except.error (CreateError.application
        { code := 201, message := "oops", kind := "invalid_request" }) :=
  ⟨by decide, rfl⟩

/-- **C6 (amended).** A structured Error Response is constructed exactly on
non-200 completion of the non-streaming path: on HTTP status 200 the path
never fails with an application error (it decodes the body as a success
`Response`), and on any other status — including 2xx statuses other than
200 — a decodable error body yields an application error carrying the
transport-observed status. -/
theorem non_stream_error_response_iff_non_200 (g : Groq) (rb : RequestBuilder)
    (t : Transport) (resp : HttpResponse)
    (hmsgs : g.get_all_request_messages ≠ [])
    (hsend : t.send = some resp) :
    (resp.status = 200 → ∀ e, (g.create_non_stream_completion rb t).result ≠
        Except.error (CreateError.application e)) ∧
    (∀ e0, resp.status ≠ 200 → t.decodeError resp.body = some e0 →
      (g.create_non_stream_completion rb t).result =
        Except.error (CreateError.application
          { code := resp.status, message := e0.message, kind := e0.kind })) := by
  rw [create_non_stream_eq g rb t resp hmsgs hsend]
  constructor
  · intro h200 e
    simp only [if_pos h200]
    cases t.decodeResponse resp.body <;> simp
  · intro e0 h200 hdec
    simp [if_neg h200, hdec]

/-- Transport for the amended-C6 witness: HTTP 404 with a decodable error
body. -/
def tC6w : Transport :=
  { send := some { status := 404, body := "errbody" },
    decodeResponse := fun _ => none,
    decodeError := fun s =>
      if s = "errbody" then
        some { code := 0, message := "oops", kind := "invalid_request" }
      else none,
    es_ok := false, events := [], decodeChunk := fun _ => none }

/-- Witness for the amended C6 at concrete inputs: a non-200 status (404)
with a decodable error body yields the application error carrying 404. -/
theorem non_stream_error_response_iff_non_200_witness :
    (gNS.create_non_stream_completion rbNS tC6w).result =
      Except.error (CreateError.application
        { code := 404, message := "oops", kind := "invalid_request" }) :=
  (non_stream_error_response_iff_non_200 gNS rbNS tC6w { status := 404, body := "errbody" }
      (by decide) rfl).2
    { code := 0, message := "oops", kind := "invalid_request" } (by decide) (by decide)

/-- Transport for the C7 failing input: one message event whose payload
does not decode as a chunk. -/
def tC7 : Transport :=
  { send := none, decodeResponse := fun _ => none, decodeError := fun _ => none,
    es_ok := true, events := [SSEvent.message "not json"],
    decodeChunk := fun _ => none }

/-- **C7** — the code evaluated at the failing input.  A decode failure of
an individual event payload makes the streaming path fail, but the failure
propagates with `?` out of the event loop without invoking
`stream.close()`: the `closed` effect flag is `false` when the error is
returned, contradicting the claim that every streaming failure closes the
underlying connection first (the explicit transport-error branch does call
`stream.close()` before bailing, showing the intended pattern). -/
theorem stream_decode_failure_not_closed :
    (gC4.create_stream_completion rbStream tC7).result =
      Except.error (CreateError.decodeError "not json") ∧
    (gC4.create_stream_completion rbStream tC7).opened = true ∧
    (gC4.create_stream_completion rbStream tC7).closed = false := by
  refine ⟨?_, ?_, ?_⟩ <;> rfl

/-- **C8.** A call to the completion entry point leaves the persistent
history and the credential unchanged, whatever the outcome; the transient
operations (`add_tmp_message`, `add_tmp_messages`,
`clear_tmp_messages_override`) also never touch the history, which changes
only via the explicit `add_message` / `add_messages` / `clear_messages`
operations. -/
theorem create_preserves_history_and_credential (g : Groq) (rb : RequestBuilder)
    (t : Transport) :
    ((g.create rb t).g).messages = g.messages ∧
    ((g.create rb t).g).api_key = g.api_key ∧
    (∀ m, (g.add_tmp_message m).messages = g.messages) ∧
    (∀ msgs, (g.add_tmp_messages msgs).messages = g.messages) ∧
    g.clear_tmp_messages_override.messages = g.messages :=
  ⟨by rw [create_g_eq]; rfl, by rw [create_g_eq]; rfl, fun _ => rfl, fun _ => rfl, rfl⟩

/-- **C9.** Two client instances constructed with the same credential (but
independent transport resources `r1`, `r2`) and given the same ordered
sequence of persistent message additions feed identical data to the hasher,
so any structural hasher assigns them equal hashes. -/
theorem structural_hash_deterministic (key : String) (ops : List HistOp) (r1 r2 : Nat)
    (hasher : List Message × String → Nat) :
    hasher (applyHistOps (Groq.new key r1) ops).hashInput =
      hasher (applyHistOps (Groq.new key r2) ops).hashInput := by
  rw [applyHistOps_eq, applyHistOps_eq]
  rfl

/-- **C10.** The structural hash reads only the persistent history and the
credential: two client states agreeing on those feed identical data to the
hasher even when their pending buffers (and transport resources) differ. -/
theorem structural_hash_ignores_tmp_messages (g1 g2 : Groq)
    (hmsg : g1.messages = g2.messages) (hkey : g1.api_key = g2.api_key)
    (hasher : List Message × String → Nat) :
    hasher g1.hashInput = hasher g2.hashInput := by
  unfold Groq.hashInput
  rw [hmsg, hkey]

/-- Client with a non-empty pending buffer for the C10 witness. -/
def gC10a : Groq := ((Groq.new "k" 0).add_message msgU).add_tmp_message msgS

/-- Client with the same history and credential but an empty pending buffer
and a different transport resource, for the C10 witness. -/
def gC10b : Groq := (Groq.new "k" 1).add_message msgU

/-- Witness for C10 at concrete inputs: the two states differ in their
pending buffers yet hash identically. -/
theorem structural_hash_ignores_tmp_messages_witness :
    gC10a.tmp_messages ≠ gC10b.tmp_messages ∧
    (fun p : List Message × String => p.1.length + p.2.length) gC10a.hashInput =
      (fun p : List Message × String => p.1.length + p.2.length) gC10b.hashInput :=
  ⟨by decide,
   structural_hash_ignores_tmp_messages gC10a gC10b rfl rfl
     (fun p => p.1.length + p.2.length)⟩

end GroqApi
